import Mathlib

/-!
Shallow embedding of the yt2mp3 bot (src/app.py): URL validation,
metadata fetching, the audio fetcher with its size-driven quality
fallback, the per-requester job guard, and the `handle_url` pipeline
orchestrator.  Machine state that Python mutates (the shared
`ydl_opts['postprocessors'][0]` dict, the `active_downloads` dict, the
scratch directory contents) is passed explicitly; the external
collaborators (yt-dlp, Telegram transport) are modelled as inputs
describing their behaviour for one run.
-/

namespace YT2MP3

/-! ### String helpers (Python `in` on strings, i.e. substring test) -/

/-- Does `p` occur at the very start of `s`? -/
def startsWithChars : List Char → List Char → Bool
  | [], _ => true
  | _ :: _, [] => false
  | p :: ps, x :: xs => (p == x) && startsWithChars ps xs

/-- Does `needle` occur anywhere inside the list? (Python `needle in hay`.) -/
def containsChars (needle : List Char) : List Char → Bool
  | [] => needle.isEmpty
  | x :: xs => startsWithChars needle (x :: xs) || containsChars needle xs

/-- Python `needle in hay` on strings. -/
def strContains (needle hay : String) : Bool :=
  containsChars needle.data hay.data

/-- Python `s.endswith(suf)` / `PurePath.match("*.mp3")`-style suffix
test, character by character. -/
def strEndsWith (s suf : String) : Bool :=
  startsWithChars suf.data.reverse s.data.reverse

/-- Python `s.lower()` (the error texts involved are ASCII). -/
def strLower (s : String) : String :=
  ⟨s.data.map Char.toLower⟩

/-- Python `s.split(sep)` for a one-character separator, on the
character list: splitting the empty string yields `[[]]`, i.e.
`"".split(",") == [""]`. -/
def splitChars (sep : Char) : List Char → List (List Char)
  | [] => [[]]
  | c :: cs =>
      match splitChars sep cs with
      | [] => if c == sep then [[], []] else [[c]]
      | g :: gs => if c == sep then [] :: g :: gs else (c :: g) :: gs

/-- Python `s.split(sep)` for a one-character separator. -/
def pySplit (s : String) (sep : Char) : List String :=
  (splitChars sep s.data).map (fun cs => ⟨cs⟩)

/-! ### A small backtracking regular-expression engine

`re.match` in Python anchors at the start of the string and succeeds if
any prefix matches.  The two patterns in `_is_valid_youtube_url` only
use literals, optional groups `(...)?`, alternation `|`, the
one-or-more wildcard `.+`, negated character classes `[^...]` and the
exact repetition `{11}` (unfolded below by `repN`), so the engine only
needs those constructs. -/

inductive RE where
  | eps : RE
  | lit : Char → RE
  /-- `cls neg cs`: a character class; `neg = true` means `[^cs]`. -/
  | cls : Bool → List Char → RE
  | seq : RE → RE → RE
  | alt : RE → RE → RE
  | opt : RE → RE
  /-- the pattern `.+` : one or more arbitrary characters. -/
  | dotplus : RE
deriving Repr

/-- Backtracking helper for `.+`: consume at least one character, then
try the continuation after every possible split. -/
def dotplusAux (k : List Char → Bool) : List Char → Bool
  | [] => false
  | _ :: xs => k xs || dotplusAux k xs

/-- CPS backtracking matcher: `matchRE r s k` holds iff some split
`s = s₁ ++ s₂` exists with `r` matching `s₁` and `k s₂` true. -/
def matchRE : RE → List Char → (List Char → Bool) → Bool
  | .eps, s, k => k s
  | .lit _, [], _ => false
  | .lit c, x :: xs, k => (x == c) && k xs
  | .cls _ _, [], _ => false
  | .cls neg cs, x :: xs, k =>
      (if neg then !(cs.contains x) else cs.contains x) && k xs
  | .seq a b, s, k => matchRE a s (fun s2 => matchRE b s2 k)
  | .alt a b, s, k => matchRE a s k || matchRE b s k
  | .opt a, s, k => matchRE a s k || k s
  | .dotplus, s, k => dotplusAux k s

/-- Literal string as a regex. -/
def strRE (s : String) : RE :=
  s.data.foldr (fun c r => RE.seq (RE.lit c) r) RE.eps

/-- Sequence a list of regexes. -/
def reSeq (rs : List RE) : RE := rs.foldr RE.seq RE.eps

/-- `r{n}`: exactly `n` copies of `r`. -/
def repN (r : RE) : Nat → RE
  | 0 => RE.eps
  | n + 1 => RE.seq r (repN r n)

/-- Python `re.match(pat, s)` truthiness: some prefix of `s` matches,
anchored at the start. -/
def reMatch (r : RE) (s : String) : Bool :=
  matchRE r s.data (fun _ => true)

/-! ### URL Validator (`TelegramBot._is_valid_youtube_url`, app.py:556-561) -/

/-- app.py:558 —
`(https?://)?(www\.)?(youtube|youtu)\.(com|be)/(watch\?v=|embed/|v/|.+\?v=)?([^&=%\?]{11})` -/
def youtube_regex : RE :=
  reSeq [
    .opt (reSeq [strRE "http", .opt (.lit 's'), strRE "://"]),
    .opt (strRE "www."),
    .alt (strRE "youtube") (strRE "youtu"),
    .lit '.',
    .alt (strRE "com") (strRE "be"),
    .lit '/',
    .opt (.alt (strRE "watch?v=")
          (.alt (strRE "embed/")
           (.alt (strRE "v/") (.seq .dotplus (strRE "?v="))))),
    repN (.cls true ['&', '=', '%', '?']) 11
  ]

/-- app.py:559 — `https?://music\.youtube\.com/watch\?v=([^&]{11})` -/
def youtube_music_regex : RE :=
  reSeq [
    strRE "http", .opt (.lit 's'), strRE "://music.youtube.com/watch?v=",
    repN (.cls true ['&']) 11
  ]

/-- app.py:561 — `bool(re.match(youtube_regex, url)) or bool(re.match(youtube_music_regex, url))`.
Pure by construction: it reads no state and performs no effect. -/
def is_valid_youtube_url (url : String) : Bool :=
  reMatch youtube_regex url || reMatch youtube_music_regex url

/-! ### Configuration (app.py:42-46) -/

/-- app.py:44 — `MAX_FILE_SIZE = 50 * 1024 * 1024  # 50MB Telegram limit` -/
def MAX_FILE_SIZE : Nat := 50 * 1024 * 1024

/-- app.py:43 — `ALLOWED_USER_IDS = os.getenv("ALLOWED_USER_IDS", "").split(",")`.
`env` is the environment variable's value (`none` when unset).  Python's
`"".split(",")` is `[""]`. -/
def ALLOWED_USER_IDS (env : Option String) : List String :=
  pySplit (env.getD "") ','

/-- The allow-list test shared by `start` (app.py:387) and `handle_url`
(app.py:460): Python `ALLOWED_USER_IDS and user_id not in ALLOWED_USER_IDS`
is true (→ reject) iff the list is non-empty and the id is absent; this
definition is the negation (true = allowed to proceed). -/
def authorized (env : Option String) (user_id : String) : Bool :=
  !((!(ALLOWED_USER_IDS env).isEmpty) && !((ALLOWED_USER_IDS env).contains user_id))

/-- app.py:383-389 — the `/start` handler up to its authorization gate:
returns `true` iff the welcome text is sent (the requester passed the
allow-list check), `false` iff the "not authorized" reply is sent. -/
def start (env : Option String) (user_id : String) : Bool :=
  if authorized env user_id then true else false

/-! ### Metadata Fetcher (`extract_video_info`, app.py:299-316) -/

/-- The raw `info` dict returned by `ydl.extract_info(url, download=False)`;
`none` models an absent key (so `info.get(k, default)` is `getD`). -/
structure RawInfo where
  title : Option String
  duration : Option Nat
  uploader : Option String
  thumbnail : Option String
  webpage_url : Option String
  duration_string : Option String
deriving Repr, DecidableEq

/-- Behaviour of the extraction collaborator for one metadata call:
either it returns an info dict or it raises with message `str(e)`. -/
inductive ExtractInfoResult where
  | ok : RawInfo → ExtractInfoResult
  | exn : String → ExtractInfoResult
deriving Repr, DecidableEq

/-- The dict `extract_video_info` builds on success (app.py:304-311),
with the `.get` defaults substituted. -/
structure VideoInfo where
  title : String
  duration : Nat
  uploader : String
  thumbnail : String
  webpage_url : String
  duration_string : String
deriving Repr, DecidableEq

/-- Return value of `extract_video_info`: either the populated info
dict, or an error dict.  `errDict err msg` models
`{"error": err}` when `msg = none` (app.py:316) and
`{"error": err, "message": m}` when `msg = some m` (app.py:315). -/
inductive InfoDict where
  | okInfo : VideoInfo → InfoDict
  | errDict : String → Option String → InfoDict
deriving Repr, DecidableEq

/-- app.py:314 / app.py:342 — the classification test
`"Sign in to confirm" in str(e) or "age-restricted" in str(e).lower()`. -/
def isAgeRestrictedMsg (msg : String) : Bool :=
  strContains "Sign in to confirm" msg || strContains "age-restricted" (strLower msg)

/-- app.py:299-316 — `extract_video_info(url)` given the collaborator's
behaviour `r`.  Every failure is caught and turned into an error dict;
nothing propagates. -/
def extract_video_info (url : String) (r : ExtractInfoResult) : InfoDict :=
  match r with
  | .ok info =>
      .okInfo {
        title := info.title.getD "Unknown Title",
        duration := info.duration.getD 0,
        uploader := info.uploader.getD "Unknown Artist",
        thumbnail := info.thumbnail.getD "",
        webpage_url := info.webpage_url.getD url,
        duration_string := info.duration_string.getD "0:00" }
  | .exn e =>
      if isAgeRestrictedMsg e then
        .errDict "age_restricted" (some "Age-restricted content. Cookies.txt required.")
      else
        .errDict e none

/-! ### Audio Fetcher (`download_audio` / `download_lower_quality`, app.py:318-376)

Python's `self.ydl_opts.copy()` (app.py:324, app.py:359) is a *shallow*
dict copy: the `'postprocessors'` key maps to the same list object in
the copy and in `self.ydl_opts`, so the inner postprocessor dict is
shared.  Writing a top-level key of the copy (`opts['outtmpl'] = ...`)
affects only the copy, but
`opts['postprocessors'][0]['preferredquality'] = '128'` (app.py:360)
mutates the downloader's own options.  `DownloaderState.pp_quality`
models that one shared mutable cell. -/

/-- The shared mutable part of `YouTubeMusicDownloader.ydl_opts`:
`postprocessors[0]['preferredquality']`. -/
structure DownloaderState where
  pp_quality : String
deriving Repr, DecidableEq

/-- app.py:253-284 — `__init__` sets `'preferredquality': '192'`. -/
def initialDownloader : DownloaderState := { pp_quality := "192" }

/-- One file in the scratch directory: name and byte size. -/
structure FSFile where
  name : String
  size : Nat
deriving Repr, DecidableEq

/-- Behaviour of one `ydl.extract_info(url, download=True)` call:
it raises with message `str(e)`, produces one mp3 artifact of the given
byte size (named by the active `outtmpl`), or completes without
producing an mp3. -/
inductive AttemptResult where
  | exn : String → AttemptResult
  | ok : Nat → AttemptResult
  | noOutput : AttemptResult
deriving Repr, DecidableEq

/-- `Path(temp_dir).glob("*.mp3")` in directory (creation) order. -/
def globMp3 (dir : List FSFile) : List FSFile :=
  dir.filter (fun f => strEndsWith f.name ".mp3")

/-- Return value of `download_audio` as seen by `handle_url`
(app.py:519-539): a path, the string `"age_restricted"`, the string
`"file_too_large"`, or `None`. -/
inductive DLRet where
  | path : String → Nat → DLRet
  | age_restricted : DLRet
  | file_too_large : DLRet
  | noneRet : DLRet
deriving Repr, DecidableEq

/-- app.py:356-376 — `download_lower_quality(url, temp_dir, chat_id)`.
`dir` is the scratch directory's current contents (it already holds the
first-tier artifact), `title` names the video, `r` is the collaborator's
behaviour for this second attempt.  Returns the Python return value, the
directory contents afterwards, and the downloader state afterwards: the
`preferredquality = '128'` write at app.py:360 hits the shared
postprocessor dict before the extraction runs, on every path. -/
def download_lower_quality (dir : List FSFile) (title : String)
    (r : AttemptResult) : DLRet × List FSFile × DownloaderState :=
  let st' : DownloaderState := { pp_quality := "128" }
  match r with
  | .exn _ => (.noneRet, dir, st')
  | .ok size =>
      let dir' := dir ++ [{ name := "compressed_" ++ title ++ ".mp3", size := size }]
      match globMp3 dir' with
      | [] => (.noneRet, dir', st')
      | f :: _ =>
          if f.size > MAX_FILE_SIZE then (.file_too_large, dir', st')
          else (.path f.name f.size, dir', st')
  | .noOutput =>
      match globMp3 dir with
      | [] => (.noneRet, dir, st')
      | f :: _ =>
          if f.size > MAX_FILE_SIZE then (.file_too_large, dir, st')
          else (.path f.name f.size, dir, st')

/-- Everything `download_audio` leaves behind.  `dirRemoved` records
whether the scratch directory created at app.py:320 was removed before
returning — the function has no `rmtree`, so it is always `false`:
the `finally` block (app.py:345-353) only unlinks files other than
`output_path`. -/
structure AudioResult where
  ret : DLRet
  dirFiles : List FSFile
  dirRemoved : Bool
  firstTierQuality : String
  st : DownloaderState
deriving Repr, DecidableEq

/-- app.py:318-354 — `download_audio(url, chat_id)`.  `st` is the
downloader's state on entry, `title` the video title (the first-tier
`outtmpl` names the artifact `<title>.mp3`, the fallback names it
`compressed_<title>.mp3`), `r1`/`r2` the collaborator's behaviour for
the first-tier and fallback attempts.  `firstTierQuality` records the
`preferredquality` the first-tier options carried (read from the shared
postprocessor dict). -/
def download_audio (st : DownloaderState) (title : String)
    (r1 r2 : AttemptResult) : AudioResult :=
  let q1 := st.pp_quality
  match r1 with
  | .exn e =>
      if isAgeRestrictedMsg e then
        { ret := .age_restricted, dirFiles := [], dirRemoved := false,
          firstTierQuality := q1, st := st }
      else
        { ret := .noneRet, dirFiles := [], dirRemoved := false,
          firstTierQuality := q1, st := st }
  | .noOutput =>
      { ret := .noneRet, dirFiles := [], dirRemoved := false,
        firstTierQuality := q1, st := st }
  | .ok size =>
      let f1 : FSFile := { name := title ++ ".mp3", size := size }
      let dir1 := [f1]
      if size > MAX_FILE_SIZE then
        match download_lower_quality dir1 title r2 with
        | (ret, dir2, st') =>
            { ret := ret,
              dirFiles := dir2.filter (fun f => f.name == f1.name),
              dirRemoved := false, firstTierQuality := q1, st := st' }
      else
        { ret := .path f1.name size,
          dirFiles := dir1.filter (fun f => f.name == f1.name),
          dirRemoved := false, firstTierQuality := q1, st := st }

/-! ### Job Guard and Pipeline Orchestrator (`handle_url`, app.py:456-554)

`self.active_downloads` is a dict keyed by requester id; we model its
key set as a `List String` (insertion only happens when the key is
absent, at app.py:474, so it never holds duplicates). -/

/-- app.py:470-474 as one operation: if the requester already holds a
job, answer busy and leave the set unchanged; otherwise add them. -/
def tryAcquire (guard : List String) (user_id : String) : Bool × List String :=
  if guard.contains user_id then (false, guard) else (true, guard ++ [user_id])

/-- app.py:551-552 — `if user_id in self.active_downloads: del ...`;
idempotent removal of the key. -/
def release (guard : List String) (user_id : String) : List String :=
  guard.filter (fun x => x != user_id)

/-- The user-visible terminal result of one `handle_url` run; message
carriers hold the text interpolated into the reply. -/
inductive Outcome where
  /-- app.py:461 — "You are not authorized to use this bot." -/
  | unauthorized : Outcome
  /-- app.py:467 — "Please send a valid YouTube or YouTube Music URL." -/
  | invalidUrl : Outcome
  /-- app.py:471 — "You already have a download in progress." -/
  | busy : Outcome
  /-- app.py:485 — "Age-restricted content ... requires cookies.txt setup." -/
  | ageRestrictedMeta : Outcome
  /-- app.py:487 — `f"Error: {video_info.get('message', 'Unknown error')}"`;
  the field is the interpolated text. -/
  | metaError : String → Outcome
  /-- app.py:499 — "Video is too long (max 30 minutes)." -/
  | tooLong : Outcome
  /-- app.py:520 — "Age-restricted. Need cookies.txt". -/
  | ageRestrictedDl : Outcome
  /-- app.py:522 — "File too large (>50MB). Try shorter video." -/
  | tooLargeMsg : Outcome
  /-- app.py:524-537 — the artifact with this file name was uploaded. -/
  | delivered : String → Outcome
  /-- app.py:539 — "Download failed. Try again." -/
  | downloadFailed : Outcome
  /-- app.py:547-549 — the outer `except` caught this exception text. -/
  | internalError : String → Outcome
deriving Repr, DecidableEq

/-- Everything observable about one `handle_url` run. -/
structure HUResult where
  /-- key set of `self.active_downloads` after the run -/
  guard : List String
  outcome : Outcome
  /-- was `extract_video_info` called? -/
  metadataFetched : Bool
  /-- was `download_audio` called? -/
  downloadInvoked : Bool
  /-- was the scratch dir created by `download_audio` (app.py:320) removed? -/
  fetcherDirRemoved : Bool
  /-- was the separate temp dir created by `handle_url` itself
  (app.py:515) removed by the `finally` at app.py:541-545? -/
  handlerDirRemoved : Bool
  /-- quality preset the first-tier download ran with, if one ran -/
  firstTierQuality : Option String
  st : DownloaderState
deriving Repr, DecidableEq

/-- app.py:456-554 — `handle_url`.  Inputs: the allow-list environment
variable, the requester id, the (already stripped) message text, the
video title, the guard's key set, the downloader state, the metadata
collaborator's behaviour, the two download attempts' behaviours, and
`unexp`: `some e` means an unexpected exception with text `e` is raised
inside the `try` block (before the metadata call — modelling the outer
`except`/`finally` at app.py:547-554), `none` means no such fault.
The dict built by `extract_video_info` is always non-empty, so the
`if not video_info` guard at app.py:492 never fires and is not
modelled as a separate branch. -/
def handle_url (env : Option String) (user_id url title : String)
    (guard : List String) (st : DownloaderState)
    (minfo : ExtractInfoResult) (r1 r2 : AttemptResult)
    (unexp : Option String) : HUResult :=
  if authorized env user_id = false then
    { guard := guard, outcome := .unauthorized, metadataFetched := false,
      downloadInvoked := false, fetcherDirRemoved := false,
      handlerDirRemoved := false, firstTierQuality := none, st := st }
  else if is_valid_youtube_url url = false then
    { guard := guard, outcome := .invalidUrl, metadataFetched := false,
      downloadInvoked := false, fetcherDirRemoved := false,
      handlerDirRemoved := false, firstTierQuality := none, st := st }
  else if guard.contains user_id then
    { guard := guard, outcome := .busy, metadataFetched := false,
      downloadInvoked := false, fetcherDirRemoved := false,
      handlerDirRemoved := false, firstTierQuality := none, st := st }
  else
    let guard1 := guard ++ [user_id]
    match unexp with
    | some e =>
        { guard := release guard1 user_id, outcome := .internalError e,
          metadataFetched := false, downloadInvoked := false,
          fetcherDirRemoved := false, handlerDirRemoved := false,
          firstTierQuality := none, st := st }
    | none =>
      match extract_video_info url minfo with
      | .errDict err msg =>
          if err = "age_restricted" then
            { guard := release guard1 user_id, outcome := .ageRestrictedMeta,
              metadataFetched := true, downloadInvoked := false,
              fetcherDirRemoved := false, handlerDirRemoved := false,
              firstTierQuality := none, st := st }
          else
            { guard := release guard1 user_id,
              outcome := .metaError (msg.getD "Unknown error"),
              metadataFetched := true, downloadInvoked := false,
              fetcherDirRemoved := false, handlerDirRemoved := false,
              firstTierQuality := none, st := st }
      | .okInfo info =>
          if info.duration > 1800 then
            { guard := release guard1 user_id, outcome := .tooLong,
              metadataFetched := true, downloadInvoked := false,
              fetcherDirRemoved := false, handlerDirRemoved := false,
              firstTierQuality := none, st := st }
          else
            let da := download_audio st title r1 r2
            let out : Outcome :=
              match da.ret with
              | .age_restricted => .ageRestrictedDl
              | .file_too_large => .tooLargeMsg
              | .path n _ =>
                  if (da.dirFiles.map FSFile.name).contains n then .delivered n
                  else .downloadFailed
              | .noneRet => .downloadFailed
            { guard := release guard1 user_id, outcome := out,
              metadataFetched := true, downloadInvoked := true,
              fetcherDirRemoved := da.dirRemoved, handlerDirRemoved := true,
              firstTierQuality := some da.firstTierQuality, st := da.st }

/-! ### Theorems -/

/-- Releasing a requester removes them from the held-set, no matter how
often they occur. -/
theorem not_mem_release_self (l : List String) (a : String) : a ∉ release l a := by
  simp [release]

/-- Claim C1 (code bug): with a 60 MiB first-tier artifact and a 45 MiB
retry artifact the fetch is claimed to return Success carrying the retry
artifact; instead `download_lower_quality` globs `*.mp3` over the shared
scratch directory, picks the first-tier file (62914560 bytes, over the
cap) and returns `file_too_large`, and `download_audio`'s `finally`
block then deletes the retry artifact `compressed_song.mp3` because
`output_path` still names the first-tier file — only `song.mp3` is left.
With a 55 MiB retry the result `file_too_large` agrees with the claim's
TooLarge branch. -/
theorem size_fallback_broken :
    (download_audio initialDownloader "song" (.ok 62914560) (.ok 47185920)).ret =
      .file_too_large ∧
    (download_audio initialDownloader "song" (.ok 62914560) (.ok 47185920)).dirFiles =
      [{ name := "song.mp3", size := 62914560 }] ∧
    (download_audio initialDownloader "song" (.ok 62914560) (.ok 57671680)).ret =
      .file_too_large := by
  decide

/-- Claim C2 (code bug): a successful end-to-end run delivers the
artifact, yet the scratch directory created by `download_audio`
(app.py:320) is never removed — no code path removes it; the `rmtree`
in `handle_url`'s `finally` (app.py:543) removes only the separate,
unused directory `handle_url` itself created at app.py:515.  The same
holds on the error and size-exceeded exits of `download_audio`. -/
theorem scratch_dir_never_removed :
    (handle_url (some "u1") "u1" "https://youtu.be/dQw4w9WgXcQ" "song" []
      initialDownloader
      (.ok ⟨some "song", some 100, some "Artist", some "th", some "w", some "1:40"⟩)
      (.ok 1000) (.ok 1000) none).outcome = .delivered "song.mp3" ∧
    (handle_url (some "u1") "u1" "https://youtu.be/dQw4w9WgXcQ" "song" []
      initialDownloader
      (.ok ⟨some "song", some 100, some "Artist", some "th", some "w", some "1:40"⟩)
      (.ok 1000) (.ok 1000) none).fetcherDirRemoved = false ∧
    (handle_url (some "u1") "u1" "https://youtu.be/dQw4w9WgXcQ" "song" []
      initialDownloader
      (.ok ⟨some "song", some 100, some "Artist", some "th", some "w", some "1:40"⟩)
      (.ok 1000) (.ok 1000) none).handlerDirRemoved = true ∧
    (download_audio initialDownloader "song" (.exn "boom") (.ok 0)).dirRemoved = false ∧
    (download_audio initialDownloader "song" (.ok 62914560) (.ok 57671680)).dirRemoved
      = false := by
  decide

/-- Claim C3: for every `handle_url` run by a requester not currently in
the held-set, the requester is no longer in the held-set when the run
ends, on every exit path — unauthorized, invalid URL, metadata failure,
age restriction, duration rejection, download failure or success, and
the unexpected-exception path: the `finally` at app.py:550-554 removes
the entry unconditionally. -/
theorem guard_released_on_every_exit (env : Option String)
    (uid url title : String) (guard : List String) (st : DownloaderState)
    (minfo : ExtractInfoResult) (r1 r2 : AttemptResult) (unexp : Option String)
    (h : uid ∉ guard) :
    uid ∉ (handle_url env uid url title guard st minfo r1 r2 unexp).guard := by
  unfold handle_url
  split
  · exact h
  split
  · exact h
  split
  · exact h
  split
  · exact not_mem_release_self _ _
  split
  · split
    · exact not_mem_release_self _ _
    · exact not_mem_release_self _ _
  · split
    · exact not_mem_release_self _ _
    · exact not_mem_release_self _ _

/-- Witness for C3 at a concrete input: requester "u1", empty held-set,
a failing metadata fetch — afterwards "u1" is not held. -/
theorem guard_released_on_every_exit_witness :
    ("u1" ∉ ([] : List String)) ∧
    "u1" ∉ (handle_url (some "u1") "u1" "https://youtu.be/dQw4w9WgXcQ" "t" []
      initialDownloader (.exn "boom") (.ok 0) (.ok 0) none).guard :=
  ⟨by decide,
   guard_released_on_every_exit (some "u1") "u1" "https://youtu.be/dQw4w9WgXcQ" "t" []
     initialDownloader (.exn "boom") (.ok 0) (.ok 0) none (by decide)⟩

/-- Claim C4: a request from a requester already in the held-set is
answered with the busy message, does not fetch metadata or download, and
leaves the held-set (and all other state) unchanged; and the guard
itself gives single-flight semantics — `tryAcquire` on a held id
returns busy without side effects, and on a free id returns acquired
with the id added (so a second acquire before release observes busy). -/
theorem single_flight_guard (env : Option String) (uid url title : String)
    (guard g2 : List String) (st : DownloaderState) (minfo : ExtractInfoResult)
    (r1 r2 : AttemptResult) (unexp : Option String)
    (hauth : authorized env uid = true)
    (hvalid : is_valid_youtube_url url = true)
    (hbusy : uid ∈ guard) (hfree : uid ∉ g2) :
    handle_url env uid url title guard st minfo r1 r2 unexp =
      { guard := guard, outcome := .busy, metadataFetched := false,
        downloadInvoked := false, fetcherDirRemoved := false,
        handlerDirRemoved := false, firstTierQuality := none, st := st } ∧
    tryAcquire guard uid = (false, guard) ∧
    (tryAcquire g2 uid).1 = true ∧ uid ∈ (tryAcquire g2 uid).2 := by
  refine ⟨?_, ?_, ?_, ?_⟩
  · unfold handle_url
    simp [hauth, hvalid, hbusy]
  · simp [tryAcquire, hbusy]
  · simp [tryAcquire, hfree]
  · simp [tryAcquire, hfree]

/-- Witness for C4 at a concrete input: "u1" already holds a job. -/
theorem single_flight_guard_witness :
    authorized (some "u1") "u1" = true ∧
    is_valid_youtube_url "https://youtu.be/dQw4w9WgXcQ" = true ∧
    "u1" ∈ ["u1"] ∧ ("u1" ∉ ([] : List String)) ∧
    (handle_url (some "u1") "u1" "https://youtu.be/dQw4w9WgXcQ" "t" ["u1"]
        initialDownloader (.exn "x") (.ok 0) (.ok 0) none =
      { guard := ["u1"], outcome := .busy, metadataFetched := false,
        downloadInvoked := false, fetcherDirRemoved := false,
        handlerDirRemoved := false, firstTierQuality := none,
        st := initialDownloader } ∧
    tryAcquire ["u1"] "u1" = (false, ["u1"]) ∧
    (tryAcquire [] "u1").1 = true ∧ "u1" ∈ (tryAcquire [] "u1").2) :=
  ⟨by decide, by decide, by decide, by decide,
   single_flight_guard (some "u1") "u1" "https://youtu.be/dQw4w9WgXcQ" "t" ["u1"] []
     initialDownloader (.exn "x") (.ok 0) (.ok 0) none
     (by decide) (by decide) (by decide) (by decide)⟩

/-- Claim C5: the URL Validator vectors from the spec; true for the
three well-formed watch/short/music URLs, false for plain text and for
an identifier shorter than 11 characters.  The embedded
`is_valid_youtube_url` is a pure function by construction, mirroring
the side-effect-free Python original. -/
theorem url_validator_vectors :
    is_valid_youtube_url "https://www.youtube.com/watch?v=dQw4w9WgXcQ" = true ∧
    is_valid_youtube_url "https://music.youtube.com/watch?v=dQw4w9WgXcQ" = true ∧
    is_valid_youtube_url "https://youtu.be/dQw4w9WgXcQ" = true ∧
    is_valid_youtube_url "not a url" = false ∧
    is_valid_youtube_url "https://youtube.com/watch?v=short" = false := by
  decide

/-- Claim C6: a successful metadata result whose duration exceeds 1800
seconds is rejected with the too-long message before `download_audio`
is ever invoked, and a duration of exactly 1800 passes the rule (the
download stage is reached). -/
theorem duration_policy (env : Option String) (uid url title : String)
    (guard : List String) (st : DownloaderState) (raw : RawInfo)
    (r1 r2 : AttemptResult)
    (hauth : authorized env uid = true)
    (hvalid : is_valid_youtube_url url = true)
    (hfree : uid ∉ guard) :
    (raw.duration.getD 0 > 1800 →
      (handle_url env uid url title guard st (.ok raw) r1 r2 none).outcome = .tooLong ∧
      (handle_url env uid url title guard st (.ok raw) r1 r2 none).downloadInvoked
        = false) ∧
    (raw.duration.getD 0 ≤ 1800 →
      (handle_url env uid url title guard st (.ok raw) r1 r2 none).downloadInvoked
        = true) := by
  unfold handle_url extract_video_info
  simp [hauth, hvalid, hfree]
  constructor
  · intro hd
    simp [hd]
  · intro hd
    have hnd : ¬ (1800 < raw.duration.getD 0) := by omega
    simp [hnd]

/-- Witness for C6 at concrete inputs with duration 1801 (rejected
before download) and the same statement's bound for 1800. -/
theorem duration_policy_witness :
    authorized (some "u1") "u1" = true ∧
    is_valid_youtube_url "https://youtu.be/dQw4w9WgXcQ" = true ∧
    ("u1" ∉ ([] : List String)) ∧
    ((RawInfo.mk (some "t") (some 1801) (some "a") (some "") (some "") (some "30:01")
        |>.duration.getD 0) > 1800 →
      (handle_url (some "u1") "u1" "https://youtu.be/dQw4w9WgXcQ" "t" []
        initialDownloader
        (.ok (RawInfo.mk (some "t") (some 1801) (some "a") (some "") (some "") (some "30:01")))
        (.ok 0) (.ok 0) none).outcome = .tooLong ∧
      (handle_url (some "u1") "u1" "https://youtu.be/dQw4w9WgXcQ" "t" []
        initialDownloader
        (.ok (RawInfo.mk (some "t") (some 1801) (some "a") (some "") (some "") (some "30:01")))
        (.ok 0) (.ok 0) none).downloadInvoked = false) ∧
    ((RawInfo.mk (some "t") (some 1801) (some "a") (some "") (some "") (some "30:01")
        |>.duration.getD 0) ≤ 1800 →
      (handle_url (some "u1") "u1" "https://youtu.be/dQw4w9WgXcQ" "t" []
        initialDownloader
        (.ok (RawInfo.mk (some "t") (some 1801) (some "a") (some "") (some "") (some "30:01")))
        (.ok 0) (.ok 0) none).downloadInvoked = true) :=
  ⟨by decide, by decide, by decide,
   (duration_policy (some "u1") "u1" "https://youtu.be/dQw4w9WgXcQ" "t" []
     initialDownloader
     (RawInfo.mk (some "t") (some 1801) (some "a") (some "") (some "") (some "30:01"))
     (.ok 0) (.ok 0) (by decide) (by decide) (by decide)).1,
   (duration_policy (some "u1") "u1" "https://youtu.be/dQw4w9WgXcQ" "t" []
     initialDownloader
     (RawInfo.mk (some "t") (some 1801) (some "a") (some "") (some "") (some "30:01"))
     (.ok 0) (.ok 0) (by decide) (by decide) (by decide)).2⟩

/-- Claim C7: an extraction error whose text contains the sign-in
substring "Sign in to confirm" makes the Metadata Fetcher return the
age-restricted error dict and the Audio Fetcher return the
`age_restricted` marker — neither a generic failure, and in both
functions the exception is caught at the boundary (the embedding is a
total function of the collaborator's behaviour). -/
theorem age_restriction_classified (url title e : String)
    (st : DownloaderState) (r2 : AttemptResult)
    (h : strContains "Sign in to confirm" e = true) :
    extract_video_info url (.exn e) =
      .errDict "age_restricted" (some "Age-restricted content. Cookies.txt required.") ∧
    (download_audio st title (.exn e) r2).ret = .age_restricted := by
  have hm : isAgeRestrictedMsg e = true := by simp [isAgeRestrictedMsg, h]
  constructor
  · simp [extract_video_info, hm]
  · simp [download_audio, hm]

/-- Witness for C7 at a concrete sign-in error text. -/
theorem age_restriction_classified_witness :
    strContains "Sign in to confirm" "ERROR: Sign in to confirm your age" = true ∧
    (extract_video_info "u" (.exn "ERROR: Sign in to confirm your age") =
      .errDict "age_restricted" (some "Age-restricted content. Cookies.txt required.") ∧
    (download_audio initialDownloader "t"
      (.exn "ERROR: Sign in to confirm your age") (.ok 0)).ret = .age_restricted) :=
  ⟨by decide,
   age_restriction_classified "u" "t" "ERROR: Sign in to confirm your age"
     initialDownloader (.ok 0) (by decide)⟩

/-- Claim C8 counterexample: on a metadata failure with raw text
"HTTP Error 404: Not Found" the error dict does carry the raw text, but
the message shown to the requester is the placeholder "Unknown error"
(app.py:487 reads the `message` key, which the generic error dict never
sets), not the raw text — refuting the claim as stated. -/
theorem metadata_error_text_not_shown_counterexample :
    extract_video_info "https://youtu.be/dQw4w9WgXcQ"
      (.exn "HTTP Error 404: Not Found") =
      .errDict "HTTP Error 404: Not Found" none ∧
    (handle_url (some "u1") "u1" "https://youtu.be/dQw4w9WgXcQ" "t" []
      initialDownloader (.exn "HTTP Error 404: Not Found") (.ok 0) (.ok 0)
      none).outcome = .metaError "Unknown error" ∧
    Outcome.metaError "Unknown error" ≠
      Outcome.metaError "HTTP Error 404: Not Found" := by
  decide

/-- Claim C8 as amended: every metadata-fetch failure not classified as
age-restricted (and whose text is not the literal string
"age_restricted") yields the generic error dict carrying the raw error
text, but the message shown to the requester is the fixed placeholder
"Unknown error", because the display reads the `message` key that the
generic dict does not set. -/
theorem metadata_error_placeholder_shown (env : Option String)
    (uid url title e : String) (guard : List String) (st : DownloaderState)
    (r1 r2 : AttemptResult)
    (hauth : authorized env uid = true)
    (hvalid : is_valid_youtube_url url = true)
    (hfree : uid ∉ guard)
    (hage : isAgeRestrictedMsg e = false)
    (hne : e ≠ "age_restricted") :
    extract_video_info url (.exn e) = .errDict e none ∧
    (handle_url env uid url title guard st (.exn e) r1 r2 none).outcome =
      .metaError "Unknown error" := by
  constructor
  · simp [extract_video_info, hage]
  · unfold handle_url extract_video_info
    simp [hauth, hvalid, hfree, hage, hne]

/-- Witness for the amended C8 at the 404 error text. -/
theorem metadata_error_placeholder_shown_witness :
    authorized (some "u1") "u1" = true ∧
    is_valid_youtube_url "https://youtu.be/dQw4w9WgXcQ" = true ∧
    ("u1" ∉ ([] : List String)) ∧
    isAgeRestrictedMsg "HTTP Error 403: Forbidden" = false ∧
    ("HTTP Error 403: Forbidden" : String) ≠ "age_restricted" ∧
    (extract_video_info "https://youtu.be/dQw4w9WgXcQ"
        (.exn "HTTP Error 403: Forbidden") =
      .errDict "HTTP Error 403: Forbidden" none ∧
    (handle_url (some "u1") "u1" "https://youtu.be/dQw4w9WgXcQ" "t" []
      initialDownloader (.exn "HTTP Error 403: Forbidden") (.ok 0) (.ok 0)
      none).outcome = .metaError "Unknown error") :=
  ⟨by decide, by decide, by decide, by decide, by decide,
   metadata_error_placeholder_shown (some "u1") "u1"
     "https://youtu.be/dQw4w9WgXcQ" "t" "HTTP Error 403: Forbidden" []
     initialDownloader (.ok 0) (.ok 0)
     (by decide) (by decide) (by decide) (by decide) (by decide)⟩

/-- Claim C9 (code bug): the baseline preset is 192 and the very first
first-tier attempt runs at 192; but after one request triggers the
lower-quality fallback, the shallow `dict.copy()` aliasing of the
postprocessor dict (app.py:359-360) leaves the downloader's own options
at 128, so the next request's first-tier attempt runs at 128 — the
fallback does change subsequent first-tier quality, refuting the
invariant the claim states. -/
theorem fallback_mutates_baseline_quality :
    initialDownloader.pp_quality = "192" ∧
    (download_audio initialDownloader "a" (.ok 62914560) (.ok 47185920)).firstTierQuality
      = "192" ∧
    (download_audio initialDownloader "a" (.ok 62914560) (.ok 47185920)).st.pp_quality
      = "128" ∧
    (download_audio
      (download_audio initialDownloader "a" (.ok 62914560) (.ok 47185920)).st
      "b" (.ok 1000) .noOutput).firstTierQuality = "128" := by
  decide

/-- Claim C10: with the allow-list environment variable unset or empty,
the configured allow-list is the one-element list holding the empty
string; it is non-empty, so every requester whose id is not the empty
string is rejected as unauthorized by both the welcome command and the
URL handler, before any guard interaction or pipeline step. -/
theorem empty_allowlist_locks_out (uid url title : String)
    (guard : List String) (st : DownloaderState) (minfo : ExtractInfoResult)
    (r1 r2 : AttemptResult) (unexp : Option String)
    (h : uid ≠ "") :
    ALLOWED_USER_IDS none = [""] ∧ ALLOWED_USER_IDS (some "") = [""] ∧
    start none uid = false ∧
    handle_url none uid url title guard st minfo r1 r2 unexp =
      { guard := guard, outcome := .unauthorized, metadataFetched := false,
        downloadInvoked := false, fetcherDirRemoved := false,
        handlerDirRemoved := false, firstTierQuality := none, st := st } := by
  have hl : ALLOWED_USER_IDS none = [""] := by decide
  have hb : (uid == "") = false := beq_eq_false_iff_ne.mpr h
  have hauth : authorized none uid = false := by
    simp [authorized, hl, List.contains, List.elem, hb]
  refine ⟨hl, by decide, ?_, ?_⟩
  · simp [start, hauth]
  · unfold handle_url
    simp [hauth]

/-- Witness for C10: requester "12345" with the variable unset. -/
theorem empty_allowlist_locks_out_witness :
    ("12345" : String) ≠ "" ∧
    (ALLOWED_USER_IDS none = [""] ∧ ALLOWED_USER_IDS (some "") = [""] ∧
    start none "12345" = false ∧
    handle_url none "12345" "https://youtu.be/dQw4w9WgXcQ" "t" []
      initialDownloader (.exn "x") (.ok 0) (.ok 0) none =
      { guard := [], outcome := .unauthorized, metadataFetched := false,
        downloadInvoked := false, fetcherDirRemoved := false,
        handlerDirRemoved := false, firstTierQuality := none,
        st := initialDownloader }) :=
  ⟨by decide,
   empty_allowlist_locks_out "12345" "https://youtu.be/dQw4w9WgXcQ" "t" []
     initialDownloader (.exn "x") (.ok 0) (.ok 0) none (by decide)⟩

end YT2MP3
